import Mathlib

/-!
Shallow embedding of the REDEMET alert agent (`alerta_redemet_agente.py`):
the bulletin classifier `analisar_mensagem_meteorologica`, the dedup cache
used by `verificar_e_alertar` and the content hash `calcular_hash_mensagem`,
together with proofs about the specified properties.

Modelling conventions:
* Python strings are Lean `String`s, scanned as `List Char`.
* `str.upper()` is `pyUpper` (ASCII case mapping; all bulletin codes
  and keywords in the program are ASCII).
* Python's `x in s` substring test is `pyIn`.
* The concrete regular expressions of the source (`re.search` / `re.findall`)
  are embedded as dedicated matchers that implement the leftmost search,
  the ordered alternation and the greedy/lazy backtracking of those exact
  patterns; `\d` is an ASCII digit and `\s` an ASCII whitespace character.
* `int(...)` is `pyInt`, which models the `ValueError` of a failed
  conversion as `none`; the classifier is therefore an `Option`-valued
  function `analisarM`, where `none` would mean an uncaught exception.
* `list(set(...))` is `setList` (duplicate removal; only membership in the
  result is used by the program and by the theorems).
* Python's process-seeded builtin `hash` has no fixed value across
  interpreter processes; it enters the model as an explicit parameter
  `pyHash : String → Int`, fixed within one process.
-/

namespace AlertaRedemet

/-- Python `str.upper()` (ASCII case mapping; all codes and keywords the program
matches are ASCII). -/
def pyUpper (s : String) : String := String.mk (s.data.map Char.toUpper)

/-- ASCII whitespace, as matched by `\s` in the source's patterns. -/
def pyIsSpace (c : Char) : Bool :=
  c = ' ' || c = '\t' || c = '\n' || c = '\x0b' || c = '\x0c' || c = '\r'

/-- Test `startsWith p s`: the list `s` begins with `p`. -/
def startsWith : List Char → List Char → Bool
  | [], _ => true
  | _ :: _, [] => false
  | p :: ps, c :: cs => p = c && startsWith ps cs

/-- Substring containment on character lists (Python's `needle in hay`). -/
def containsSub (n : List Char) : List Char → Bool
  | [] => startsWith n []
  | c :: cs => startsWith n (c :: cs) || containsSub n cs

/-- Python's `needle in hay` on strings. -/
def pyIn (needle hay : String) : Bool := containsSub needle.data hay.data

/-- Python `list(set(l))` for the purposes of this program: duplicates removed.
Only membership in the result is relevant (Python's `set` order is
unspecified). -/
def setList : List String → List String
  | [] => []
  | x :: xs => if x ∈ setList xs then setList xs else x :: setList xs

/-- Python's `sep.join(l)`. -/
def joinSep (sep : String) : List String → String
  | [] => ""
  | [x] => x
  | x :: y :: xs => x ++ sep ++ joinSep sep (y :: xs)

/-- Decimal value of a digit list. -/
def natDigits (l : List Char) : Nat :=
  l.foldl (fun n c => 10 * n + (c.toNat - 48)) 0

/-- Python's `int(...)` on the strings produced by the source's `\d` regex
groups: succeeds exactly on nonempty all-digit strings (the only shapes
those groups can take), `none` models the `ValueError` otherwise. -/
def pyInt (s : String) : Option Nat :=
  if s.data ≠ [] ∧ s.data.all Char.isDigit then some (natDigits s.data) else none

/-! ### Embeddings of the source's regular expressions -/

/-- Ordered alternation: the result of the first alternative that matches
(regex `|`, and the first-position-wins rule of `re.search`). -/
def pyAlt {β : Type} : Option β → Option β → Option β
  | some x, _ => some x
  | none, b => b

/-- Exactly `n` digits at the front: returns them and the remainder. -/
def takeDigits : Nat → List Char → Option (List Char × List Char)
  | 0, s => some ([], s)
  | _ + 1, [] => none
  | n + 1, c :: cs =>
    if c.isDigit then (takeDigits n cs).map (fun p => (c :: p.1, p.2)) else none

/-- One position of `re.search(f"{codigo}00[1-5]", ...)` (source line 407). -/
def lowCeilHere (code : List Char) (s : List Char) : Bool :=
  startsWith (code ++ ['0', '0']) s &&
    (match s.drop (code.length + 2) with
     | c :: _ => decide ('1' ≤ c) && decide (c ≤ '5')
     | [] => false)

/-- Search `re.search(f"\x7bcodigo\x7d00[1-5]", s)` as a Boolean (leftmost scan). -/
def lowCeilSearch (code : List Char) : List Char → Bool
  | [] => false
  | c :: cs => lowCeilHere code (c :: cs) || lowCeilSearch code cs

/-- One position of `re.search(r'\s(\d{4})\s', ...)` (source line 411):
whitespace, four digits (the group), whitespace. -/
def visHere : List Char → Option (List Char)
  | a :: b :: c :: d :: e :: f :: _ =>
    if pyIsSpace a && b.isDigit && c.isDigit && d.isDigit && e.isDigit && pyIsSpace f
    then some [b, c, d, e] else none
  | _ => none

/-- Search `re.search(r'\s(\d{4})\s', s)`, returning group 1. -/
def visSearch : List Char → Option (List Char)
  | [] => none
  | c :: cs => pyAlt (visHere (c :: cs)) (visSearch cs)

/-- One coverage alternative of `(FEW|SCT|BKN|OVC)(\d{3})CB` (source line 423). -/
def cbTry (cov : List Char) (s : List Char) : Option (List Char) :=
  if startsWith cov s then
    Option.bind (takeDigits 3 (s.drop 3)) (fun p =>
      if startsWith ['C', 'B'] p.2 then some p.1 else none)
  else none

/-- One position of `re.search(r'(FEW|SCT|BKN|OVC)(\d{3})CB', ...)`,
alternatives tried in the pattern's order. -/
def cbHere (s : List Char) : Option (List Char) :=
  pyAlt (cbTry ['F', 'E', 'W'] s)
    (pyAlt (cbTry ['S', 'C', 'T'] s)
      (pyAlt (cbTry ['B', 'K', 'N'] s) (cbTry ['O', 'V', 'C'] s)))

/-- Search `re.search(r'(FEW|SCT|BKN|OVC)(\d{3})CB', s)`, returning group 2. -/
def cbSearch : List Char → Option (List Char)
  | [] => none
  | c :: cs => pyAlt (cbHere (c :: cs)) (cbSearch cs)

/-- One gust width of `G(\d{2,3})` followed by `KT`: `n` digits then the
literal `KT`; returns the gust group and the remainder after `KT`. -/
def gustTry (n : Nat) (t : List Char) : Option (Option (List Char) × List Char) :=
  Option.bind (takeDigits n t) (fun p =>
    if startsWith ['K', 'T'] p.2 then some (some p.1, p.2.drop 2) else none)

/-- Pattern `(G(\d{2,3}))?KT`: the optional group is greedy (gust of 3 digits, then
of 2), and when absent `KT` must follow directly.  (When a `G` is present
but no gust parses, the backtracked empty option would need `KT` to match
at the `G`, which is impossible, hence `none`.) -/
def windTail : List Char → Option (Option (List Char) × List Char)
  | [] => none
  | c :: t =>
    if c = 'G' then pyAlt (gustTry 3 t) (gustTry 2 t)
    else if startsWith ['K', 'T'] (c :: t) then some (none, t.drop 1) else none

/-- Speed of width `n` followed by the rest of the wind pattern. -/
def speedTry (n : Nat) (s : List Char) : Option (List Char × Option (List Char) × List Char) :=
  Option.bind (takeDigits n s) (fun p =>
    (windTail p.2).map (fun gr => (p.1, gr.1, gr.2)))

/-- Pattern `(\d{2,3})(G(\d{2,3}))?KT`: greedy speed, 3 digits then 2. -/
def windSpeedTail (s : List Char) : Option (List Char × Option (List Char) × List Char) :=
  pyAlt (speedTry 3 s) (speedTry 2 s)

/-- One position of `re.search(r'(\d{3}|VRB)(\d{2,3})(G(\d{2,3}))?KT', ...)`
(source line 434): ordered alternation on the direction group. -/
def windHere (s : List Char) : Option (List Char × Option (List Char) × List Char) :=
  pyAlt (Option.bind (takeDigits 3 s) (fun p => windSpeedTail p.2))
    (if startsWith ['V', 'R', 'B'] s then windSpeedTail (s.drop 3) else none)

/-- The wind search of source line 434, returning groups 2 and 4
(sustained-speed digits, gust digits). -/
def windSearch : List Char → Option (List Char × Option (List Char))
  | [] => none
  | c :: cs => pyAlt ((windHere (c :: cs)).map (fun q => (q.1, q.2.1))) (windSearch cs)

/-- The wind part `(VRB|\d{3})(\d{2,3})(G(\d{2,3}))?KT` of the TAF trend
pattern (source line 476); alternation order `VRB` first. -/
def windHereTaf (s : List Char) : Option (List Char × Option (List Char) × List Char) :=
  pyAlt (if startsWith ['V', 'R', 'B'] s then windSpeedTail (s.drop 3) else none)
    (Option.bind (takeDigits 3 s) (fun p => windSpeedTail p.2))

/-- The trend marker `(TEMPO|BECMG|PROB\d{2})` of source line 476. -/
def markerHere (s : List Char) : Option (List Char × List Char) :=
  if startsWith ['T', 'E', 'M', 'P', 'O'] s then some (['T', 'E', 'M', 'P', 'O'], s.drop 5)
  else if startsWith ['B', 'E', 'C', 'M', 'G'] s then some (['B', 'E', 'C', 'M', 'G'], s.drop 5)
  else if startsWith ['P', 'R', 'O', 'B'] s then
    (takeDigits 2 (s.drop 4)).map (fun p => (['P', 'R', 'O', 'B'] ++ p.1, p.2))
  else none

/-- The lazy `.*?` bridge of the TAF trend pattern: the wind part is tried
at the current point first, then one (non-newline) character is consumed
and the search repeats. -/
def lazyWind : List Char → Option (List Char × Option (List Char) × List Char)
  | [] => none
  | c :: cs => pyAlt (windHereTaf (c :: cs)) (if c = '\n' then none else lazyWind cs)

/-- After a matched trend marker: one `\s` character, then the lazy bridge
and the wind part. -/
def tafAfterMarker (pre : List Char) :
    List Char → Option (List Char × List Char × Option (List Char) × List Char)
  | [] => none
  | c :: r2 =>
    if pyIsSpace c then (lazyWind r2).map (fun q => (pre, q.1, q.2.1, q.2.2)) else none

/-- One position of the full TAF trend pattern
`(TEMPO|BECMG|PROB\d{2})\s.*?(VRB|\d{3})(\d{2,3})(G(\d{2,3}))?KT`.
Returns (marker text, speed digits, gust digits, remainder after the
match). -/
def tafMatchHere (s : List Char) : Option (List Char × List Char × Option (List Char) × List Char) :=
  Option.bind (markerHere s) (fun p => tafAfterMarker p.1 p.2)

/-- Fuel-indexed `re.findall` loop for the TAF trend pattern: leftmost
match, then resume after the matched text (non-overlapping matches). -/
def tafWindAllF : Nat → List Char → List (List Char × List Char × Option (List Char))
  | 0, _ => []
  | _ + 1, [] => []
  | fuel + 1, c :: cs =>
    match tafMatchHere (c :: cs) with
    | some q => (q.1, q.2.1, q.2.2.1) :: tafWindAllF fuel q.2.2.2
    | none => tafWindAllF fuel cs

/-- Loop of `re.findall` of source line 476.  Every loop step either moves the scan
one character right or consumes a whole match (at least six characters), so
`length + 1` fuel always suffices and the fuel never runs out. -/
def tafWindAll (s : List Char) : List (List Char × List Char × Option (List Char)) :=
  tafWindAllF (s.length + 1) s

/-- One position of `re.search(r'SFC WSPD (\d+KT)(?: MAX (\d+))?', ...)`
(source line 506).  Group 1 is the digits *with* the `KT` suffix; group 2
is the optional `MAX` digits.  `\d+` is greedy and `KT` starts with a
non-digit, so the maximal digit run is the only candidate. -/
def sfcHere (s : List Char) : Option (List Char × Option (List Char)) :=
  if startsWith ("SFC WSPD ".data) s then
    let r := s.drop 9
    let d := r.takeWhile Char.isDigit
    let r2 := r.dropWhile Char.isDigit
    if d.isEmpty then none
    else if startsWith ['K', 'T'] r2 then
      let r3 := r2.drop 2
      if startsWith (" MAX ".data) r3 then
        let m := (r3.drop 5).takeWhile Char.isDigit
        if m.isEmpty then some (d ++ ['K', 'T'], none) else some (d ++ ['K', 'T'], some m)
      else some (d ++ ['K', 'T'], none)
    else none
  else none

/-- The surface-wind search of source line 506, returning groups 1 and 2. -/
def sfcSearch : List Char → Option (List Char × Option (List Char))
  | [] => none
  | c :: cs => pyAlt (sfcHere (c :: cs)) (sfcSearch cs)

/-! ### The program -/

/-- The code table of source lines 25-63, in its (insertion-ordered)
iteration order. -/
def CODIGOS_METAR_TAF_MAP : List (String × String) := [
  ("TS", "Trovoada"),
  ("RA", "Chuva"),
  ("+RA", "Chuva Forte"),
  ("-RA", "Chuva Fraca"),
  ("GR", "Granizo"),
  ("GS", "Granizo Pequeno/Grãos de Neve"),
  ("FZRA", "Chuva Congelante"),
  ("SN", "Neve"),
  ("SG", "Nevoeiro Congelante"),
  ("IC", "Cristais de Gelo"),
  ("PL", "Pellets de Gelo"),
  ("UP", "Precipitação Desconhecida"),
  ("FG", "Nevoeiro"),
  ("BR", "Névoa"),
  ("HZ", "Névoa Seca (Haze)"),
  ("FU", "Fumaça"),
  ("VA", "Cinzas Vulcânicas"),
  ("DU", "Poeira Generalizada"),
  ("SA", "Areia"),
  ("BLDU", "Poeira Levantada"),
  ("BLSA", "Areia Levantada"),
  ("BLSN", "Neve Levantada"),
  ("DRDU", "Poeira Arrastada"),
  ("DRSA", "Areia Arrastada"),
  ("DRSN", "Neve Arrastada"),
  ("PO", "Redemoinhos de Poeira/Areia"),
  ("SQ", "Rajada (Squall)"),
  ("FC", "Funil de Vento (Tornado/Waterspout)"),
  ("SS", "Tempestade de Areia"),
  ("DS", "Tempestade de Poeira"),
  ("VCTS", "Trovoada nas Proximidades"),
  ("SH", "Pancada (Shower)"),
  ("OVC", "Nublado (Overcast)"),
  ("BKN", "Parcialmente Nublado (Broken)"),
  ("CB", "Cumulunimbus"),
  ("TCU", "Cumulus Castellanus"),
  ("WS", "Tesoura de Vento (Wind Shear)")]

/-- Body of the per-code loop of source lines 403-431 for one map entry:
the findings that entry appends to `alertas_encontrados`. -/
def codigoFindings (msgU : String) (cd : String × String) : Option (List String) :=
  if pyIn cd.1 msgU then
    if cd.1 = "OVC" ∨ cd.1 = "BKN" then
      if lowCeilSearch cd.1.data msgU.data then
        some [cd.2 ++ " (TETO BAIXO < 600FT)"]
      else some []
    else if cd.1 = "FG" then
      (visSearch msgU.data).elim
        (if pyIn "FG" msgU then some [cd.2] else some [])
        (fun vd =>
          Option.bind (pyInt (String.mk vd)) (fun v =>
            if v < 1000 then some [cd.2 ++ " (VISIBILIDADE < 1000M)"] else some []))
    else if cd.1 = "RA" ∧ pyIn "+RA" msgU then
      some ["Chuva Forte"]
    else if cd.1 = "CB" then
      (cbSearch msgU.data).elim (some [cd.2])
        (fun hd =>
          Option.bind (pyInt (String.mk hd)) (fun h =>
            some [cd.2 ++ " a " ++ toString (h * 100) ++ "FT"]))
    else some [cd.2]
  else some []

/-- The whole per-code loop of source lines 403-431. -/
def codigosFindingsAux (msgU : String) : List (String × String) → Option (List String)
  | [] => some []
  | cd :: rest =>
    Option.bind (codigoFindings msgU cd) (fun a =>
    Option.bind (codigosFindingsAux msgU rest) (fun b =>
    some (a ++ b)))

/-- The gust half of the wind rule (source lines 445-448): `wind_desc`
entries contributed by group 4. -/
def gustDesc (gst : Option (List Char)) : Option (List String) :=
  gst.elim (some [])
    (fun g =>
      Option.bind (pyInt (String.mk g)) (fun gv =>
        some (if 20 < gv then ["Rajadas de " ++ toString gv ++ "KT"] else [])))

/-- The base wind rule of source lines 434-451. -/
def windBlock (msgU : String) : Option (List String) :=
  (windSearch msgU.data).elim (some [])
    (fun p =>
      Option.bind (pyInt (String.mk p.1)) (fun s =>
      Option.bind (gustDesc p.2) (fun d2 =>
        let wd := (if 20 < s then ["Vento Médio de " ++ toString s ++ "KT"] else []) ++ d2
        some (if wd.isEmpty then [] else [joinSep " e " wd]))))

/-- Body of the TAF per-code loop of source lines 455-473 for one entry. -/
def tafCodigoFindings (msgU : String) (cd : String × String) : Option (List String) :=
  Option.bind
    (if cd.1 = "FG" then
      (visSearch msgU.data).elim
        (if pyIn "FG" msgU then some ["PREVISÃO: " ++ cd.2] else some [])
        (fun vd =>
          Option.bind (pyInt (String.mk vd)) (fun v =>
            if v < 1000 then some ["PREVISÃO: " ++ cd.2 ++ " (VISIBILIDADE < 1000M)"]
            else if pyIn "FG" msgU then some ["PREVISÃO: " ++ cd.2] else some []))
    else some [])
    (fun l5 =>
      some
        ((if pyIn ("PROB30 " ++ cd.1) msgU || pyIn ("PROB40 " ++ cd.1) msgU
          then ["PREVISÃO PROB: " ++ cd.2] else [])
        ++ (if pyIn ("TEMPO " ++ cd.1) msgU
            then ["PREVISÃO TEMPO: " ++ cd.2] else [])
        ++ (if pyIn ("BECMG " ++ cd.1) msgU
            then ["PREVISÃO BECMG: " ++ cd.2] else [])
        ++ (if (cd.1 = "OVC" ∨ cd.1 = "BKN") ∧ lowCeilSearch cd.1.data msgU.data
            then ["PREVISÃO: " ++ cd.2 ++ " (TETO BAIXO < 600FT)"] else [])
        ++ l5))

/-- The whole TAF per-code loop of source lines 455-473. -/
def tafCodigosAux (msgU : String) : List (String × String) → Option (List String)
  | [] => some []
  | cd :: rest =>
    Option.bind (tafCodigoFindings msgU cd) (fun a =>
    Option.bind (tafCodigosAux msgU rest) (fun b =>
    some (a ++ b)))

/-- The TAF trend wind loop of source lines 476-494, over the `findall`
result. -/
def tafWindFindings : List (List Char × List Char × Option (List Char)) → Option (List String)
  | [] => some []
  | (pre, spd, gst) :: rest =>
    Option.bind (pyInt (String.mk spd)) (fun s =>
    Option.bind (gustDesc gst) (fun d2 =>
      let wd := (if 20 < s then ["Vento Médio de " ++ toString s ++ "KT"] else []) ++ d2
      Option.bind (tafWindFindings rest) (fun more =>
        some ((if wd.isEmpty then []
               else ["PREVISÃO " ++ String.mk pre ++ ": " ++ joinSep " e " wd]) ++ more))))

/-- The aerodrome-warning keyword block of source lines 499-530:
`aviso_fenomenos_desc` in append order. -/
def avisoBlock (msgU : String) : List String :=
  (if pyIn "TS" msgU then ["Trovoada"] else [])
  ++ (sfcSearch msgU.data).elim []
      (fun p =>
        p.2.elim ["Vento de Superfície de " ++ String.mk p.1]
          (fun maxw =>
            ["Vento de Superfície entre " ++ String.mk p.1 ++ " e " ++ String.mk maxw ++ "KT"]))
  ++ (if pyIn "GRANIZO" msgU then ["Granizo"] else [])
  ++ (if pyIn "NEVOEIRO" msgU || pyIn "FG" msgU then ["Nevoeiro"] else [])
  ++ (if pyIn "CHUVA FORTE" msgU || pyIn "+RA" msgU then ["Chuva Forte"] else [])
  ++ (if pyIn "VISIBILIDADE REDUZIDA" msgU then ["Visibilidade Reduzida"] else [])
  ++ (if pyIn "WIND SHEAR" msgU || pyIn "WS" msgU then ["Tesoura de Vento (Wind Shear)"] else [])
  ++ (if pyIn "CINZAS VULCÂNICAS" msgU || pyIn "VA" msgU then ["Cinzas Vulcânicas"] else [])
  ++ (if pyIn "FUMAÇA" msgU || pyIn "FU" msgU then ["Fumaça"] else [])

/-- The TAF-only section of the classifier (source lines 454-494), guarded
by `"TAF" in tipo_mensagem.upper()`. -/
def tafPart (msgU tipoU : String) : Option (List String) :=
  if pyIn "TAF" tipoU then
    Option.bind (tafCodigosAux msgU CODIGOS_METAR_TAF_MAP) (fun c1 =>
    Option.bind (tafWindFindings (tafWindAll msgU.data)) (fun c2 =>
    some (c1 ++ c2)))
  else some []

/-- The aerodrome-warning section of the classifier (source lines 498-536),
guarded by `"AVISO" in tipo_mensagem.upper()`. -/
def avisoPart (msgU tipoU : String) : List String :=
  if pyIn "AVISO" tipoU then
    (if (avisoBlock msgU).isEmpty then ["Conteúdo não mapeado"]
     else setList (avisoBlock msgU))
  else []

/-- Function `analisar_mensagem_meteorologica` (source lines 391-539), with `none`
modelling an uncaught exception from a failed `int(...)` conversion. -/
def analisarM (mensagem_texto tipo_mensagem : String) : Option (List String) :=
  Option.map
    (fun base => setList (base ++ avisoPart (pyUpper mensagem_texto) (pyUpper tipo_mensagem)))
    (if pyIn "METAR" (pyUpper tipo_mensagem) || pyIn "SPECI" (pyUpper tipo_mensagem)
        || pyIn "TAF" (pyUpper tipo_mensagem) then
      Option.bind (codigosFindingsAux (pyUpper mensagem_texto) CODIGOS_METAR_TAF_MAP) (fun a =>
      Option.bind (windBlock (pyUpper mensagem_texto)) (fun b =>
      Option.bind (tafPart (pyUpper mensagem_texto) (pyUpper tipo_mensagem)) (fun c =>
      some (a ++ b ++ c))))
    else some [])

/-- The finding list of `analisar_mensagem_meteorologica` (total form; by
`analisarM_isSome` the default is never taken). -/
def analisar_mensagem_meteorologica (mensagem_texto tipo_mensagem : String) : List String :=
  (analisarM mensagem_texto tipo_mensagem).getD []

/-! ### The dedup cache and the per-bulletin pipeline step -/

/-- Function `calcular_hash_mensagem` (source lines 71-73) calls Python's builtin
`hash`, whose value on strings depends on the per-process hash seed; the
model therefore takes the process's hash function as a parameter. -/
def calcular_hash_mensagem (pyHash : String → Int) (mensagem : String) : Int :=
  pyHash mensagem

/-- Test `hash in alertas_enviados_cache` (dict-key membership). -/
def cacheMem (h : Int) (c : List (Int × Nat)) : Bool :=
  c.any (fun p => p.1 = h)

/-- Assignment `alertas_enviados_cache[hash] = timestamp` (dict overwrite). -/
def cacheSet (h : Int) (t : Nat) (c : List (Int × Nat)) : List (Int × Nat) :=
  if cacheMem h c then c.map (fun p => if p.1 = h then (h, t) else p) else c ++ [(h, t)]

/-- The cache eviction loop of source lines 628-630: drop entries older
than 24 hours (timestamps in seconds). -/
def limparCache (now : Nat) (c : List (Int × Nat)) : List (Int × Nat) :=
  c.filter (fun p => !(86400 < now - p.2))

/-- One bulletin of the `verificar_e_alertar` loops (source lines 552-571,
576-595 and 602-624, which share this shape): returns whether an outbound
alert was sent, and the updated cache. -/
def processar_mensagem (pyHash : String → Int) (cache : List (Int × Nat)) (now : Nat)
    (mensagem : String) (tipo : String) : Bool × List (Int × Nat) :=
  if cacheMem (calcular_hash_mensagem pyHash mensagem) cache then (false, cache)
  else if analisar_mensagem_meteorologica mensagem tipo ≠ [] ∧
      "Conteúdo não mapeado" ∉ analisar_mensagem_meteorologica mensagem tipo then
    (true, cacheSet (calcular_hash_mensagem pyHash mensagem) now cache)
  else (false, cache)

/-- Modelled from the spec (§4.4, not implemented as such in the source):
the bulletin contains the volcanic-ash code `VA` as a standalone token,
i.e. an occurrence of `VA` whose neighbouring characters (when present)
are not letters. -/
def hasStandaloneVAAux (prev : Option Char) : List Char → Bool
  | 'V' :: 'A' :: rest =>
    ((match prev with | none => true | some c => !c.isAlpha) &&
     (match rest with | c :: _ => !c.isAlpha | [] => true))
    || hasStandaloneVAAux (some 'V') ('A' :: rest)
  | [] => false
  | c :: rest => hasStandaloneVAAux (some c) rest

/-- Modelled from the spec: standalone volcanic-ash token test on the
upper-cased bulletin text. -/
def hasStandaloneVA (s : String) : Bool :=
  hasStandaloneVAAux none (pyUpper s).data

/-! ### Substring lemmas -/

theorem startsWith_iff {p s : List Char} : startsWith p s = true ↔ ∃ t, s = p ++ t := by
  induction p generalizing s with
  | nil => simp [startsWith]
  | cons a ps ih =>
    cases s with
    | nil => simp [startsWith]
    | cons c cs =>
      simp only [startsWith, Bool.and_eq_true, decide_eq_true_eq, ih, List.cons_append,
        List.cons.injEq]
      constructor
      · rintro ⟨rfl, t, rfl⟩; exact ⟨t, rfl, rfl⟩
      · rintro ⟨t, rfl, rfl⟩; exact ⟨rfl, t, rfl⟩

theorem containsSub_iff {n s : List Char} : containsSub n s = true ↔ ∃ a b, s = a ++ n ++ b := by
  induction s with
  | nil =>
    simp only [containsSub, startsWith_iff]
    constructor
    · rintro ⟨t, ht⟩
      rcases List.append_eq_nil.mp ht.symm with ⟨rfl, rfl⟩
      exact ⟨[], [], rfl⟩
    · rintro ⟨a, b, h⟩
      rcases List.append_eq_nil.mp h.symm with ⟨h1, rfl⟩
      rcases List.append_eq_nil.mp h1 with ⟨rfl, rfl⟩
      exact ⟨[], rfl⟩
  | cons c cs ih =>
    simp only [containsSub, Bool.or_eq_true, startsWith_iff, ih]
    constructor
    · rintro (⟨t, ht⟩ | ⟨a, b, rfl⟩)
      · exact ⟨[], t, by simp [ht]⟩
      · exact ⟨c :: a, b, rfl⟩
    · rintro ⟨a, b, h⟩
      cases a with
      | nil => exact Or.inl ⟨b, by simpa using h⟩
      | cons a' as =>
        right
        simp only [List.cons_append, List.cons.injEq] at h
        exact ⟨as, b, h.2⟩

theorem containsSub_trans {a b c : List Char} (h1 : containsSub a b = true)
    (h2 : containsSub b c = true) : containsSub a c = true := by
  rw [containsSub_iff] at h1 h2 ⊢
  obtain ⟨x, y, rfl⟩ := h1
  obtain ⟨u, v, rfl⟩ := h2
  exact ⟨u ++ x, y ++ v, by simp⟩

theorem pyIn_trans {a b c : String} (h1 : pyIn a b = true) (h2 : pyIn b c = true) :
    pyIn a c = true :=
  containsSub_trans h1 h2

theorem startsWith_append_self {p t : List Char} : startsWith p (p ++ t) = true :=
  startsWith_iff.mpr ⟨t, rfl⟩

theorem pyAlt_eq_some {β : Type} {a b : Option β} {x : β} :
    pyAlt a b = some x ↔ a = some x ∨ (a = none ∧ b = some x) := by
  cases a <;> simp [pyAlt]

/-! ### Digit-group lemmas: every regex digit group is a nonempty list of
digits, so every `int(...)` call of the classifier succeeds -/

/-- A digit group as produced by a `\d` repetition: nonempty, digits only. -/
def GoodDigits (d : List Char) : Prop := d ≠ [] ∧ ∀ c ∈ d, c.isDigit = true

theorem takeDigits_spec : ∀ {n : Nat} {s d r : List Char}, takeDigits n s = some (d, r) →
    d.length = n ∧ (∀ c ∈ d, c.isDigit = true) ∧ s = d ++ r := by
  intro n
  induction n with
  | zero =>
    intro s d r h
    simp only [takeDigits, Option.some.injEq, Prod.mk.injEq] at h
    obtain ⟨rfl, rfl⟩ := h
    simp
  | succ n ih =>
    intro s d r h
    cases s with
    | nil => simp [takeDigits] at h
    | cons c cs =>
      rw [takeDigits] at h
      by_cases hc : c.isDigit
      · rw [if_pos hc, Option.map_eq_some'] at h
        obtain ⟨⟨d', r'⟩, hd, heq⟩ := h
        obtain ⟨h1, h2, h3⟩ := ih hd
        obtain ⟨rfl, rfl⟩ := Prod.mk.inj heq
        refine ⟨by simp [h1], ?_, by simp [h3]⟩
        intro x hx
        rcases List.mem_cons.mp hx with rfl | hx
        · exact hc
        · exact h2 x hx
      · rw [if_neg hc] at h
        exact absurd h (by simp)

theorem takeDigits_good {n : Nat} {s d r : List Char} (hn : 0 < n)
    (h : takeDigits n s = some (d, r)) : GoodDigits d := by
  obtain ⟨h1, h2, _⟩ := takeDigits_spec h
  exact ⟨by rw [← List.length_pos]; omega, h2⟩

theorem pyInt_good {d : List Char} (h : GoodDigits d) :
    pyInt (String.mk d) = some (natDigits d) := by
  unfold pyInt
  rw [if_pos]
  refine ⟨h.1, ?_⟩
  rw [List.all_eq_true]
  intro c hc
  exact h.2 c hc

theorem visHere_good {s g : List Char} (h : visHere s = some g) : GoodDigits g := by
  match s with
  | a :: b :: c :: d :: e :: f :: rest =>
    rw [visHere] at h
    split at h
    · rename_i hcond
      simp only [Option.some.injEq] at h
      subst h
      simp only [Bool.and_eq_true] at hcond
      refine ⟨by simp, ?_⟩
      intro x hx
      simp only [List.mem_cons, List.not_mem_nil, or_false] at hx
      rcases hx with rfl | rfl | rfl | rfl
      · exact hcond.1.1.1.1.2
      · exact hcond.1.1.1.2
      · exact hcond.1.1.2
      · exact hcond.1.2
    · exact absurd h (by simp)
  | [] => simp [visHere] at h
  | [a] => simp [visHere] at h
  | [a, b] => simp [visHere] at h
  | [a, b, c] => simp [visHere] at h
  | [a, b, c, d] => simp [visHere] at h
  | [a, b, c, d, e] => simp [visHere] at h

theorem visSearch_good : ∀ {s g : List Char}, visSearch s = some g → GoodDigits g := by
  intro s
  induction s with
  | nil => intro g h; simp [visSearch] at h
  | cons c cs ih =>
    intro g h
    rw [visSearch, pyAlt_eq_some] at h
    rcases h with h | ⟨-, h⟩
    · exact visHere_good h
    · exact ih h

theorem cbTry_good {cov s g : List Char} (h : cbTry cov s = some g) : GoodDigits g := by
  unfold cbTry at h
  split at h
  · rw [Option.bind_eq_some] at h
    obtain ⟨p, hp, h⟩ := h
    obtain ⟨d, r⟩ := p
    split at h
    · obtain rfl := Option.some.inj h
      exact takeDigits_good (by omega) hp
    · exact absurd h (by simp)
  · exact absurd h (by simp)

theorem cbHere_good {s g : List Char} (h : cbHere s = some g) : GoodDigits g := by
  unfold cbHere at h
  rw [pyAlt_eq_some] at h
  rcases h with h | ⟨-, h⟩
  · exact cbTry_good h
  · rw [pyAlt_eq_some] at h
    rcases h with h | ⟨-, h⟩
    · exact cbTry_good h
    · rw [pyAlt_eq_some] at h
      rcases h with h | ⟨-, h⟩ <;> exact cbTry_good h

theorem cbSearch_good : ∀ {s g : List Char}, cbSearch s = some g → GoodDigits g := by
  intro s
  induction s with
  | nil => intro g h; simp [cbSearch] at h
  | cons c cs ih =>
    intro g h
    rw [cbSearch, pyAlt_eq_some] at h
    rcases h with h | ⟨-, h⟩
    · exact cbHere_good h
    · exact ih h

theorem gustTry_good {n : Nat} {t : List Char} {og : Option (List Char)} {r : List Char}
    (hn : 0 < n) (h : gustTry n t = some (og, r)) : ∀ g, og = some g → GoodDigits g := by
  unfold gustTry at h
  rw [Option.bind_eq_some] at h
  obtain ⟨p, hp, h⟩ := h
  obtain ⟨d, r2⟩ := p
  split at h
  · obtain ⟨h1, h2⟩ := Prod.mk.inj (Option.some.inj h)
    intro g hg
    rw [← h1] at hg
    obtain rfl := Option.some.inj hg
    exact takeDigits_good hn hp
  · exact absurd h (by simp)

theorem windTail_good : ∀ {s : List Char} {og : Option (List Char)} {r : List Char},
    windTail s = some (og, r) → ∀ g, og = some g → GoodDigits g := by
  intro s og r h
  cases s with
  | nil => simp [windTail] at h
  | cons c t =>
    rw [windTail] at h
    split at h
    · rw [pyAlt_eq_some] at h
      rcases h with h | ⟨-, h⟩
      · exact gustTry_good (by omega) h
      · exact gustTry_good (by omega) h
    · split at h
      · obtain ⟨h1, h2⟩ := Prod.mk.inj (Option.some.inj h)
        intro g hg
        rw [← h1] at hg
        exact absurd hg (by simp)
      · exact absurd h (by simp)

theorem speedTry_good {n : Nat} {s d : List Char} {og : Option (List Char)} {r : List Char}
    (hn : 0 < n) (h : speedTry n s = some (d, og, r)) :
    GoodDigits d ∧ ∀ g, og = some g → GoodDigits g := by
  unfold speedTry at h
  rw [Option.bind_eq_some] at h
  obtain ⟨p, hp, h⟩ := h
  obtain ⟨d0, r0⟩ := p
  rw [Option.map_eq_some'] at h
  obtain ⟨⟨og0, r1⟩, hw, heq⟩ := h
  obtain ⟨h1, h2⟩ := Prod.mk.inj heq
  obtain ⟨h3, h4⟩ := Prod.mk.inj h2
  subst h1
  subst h3
  exact ⟨takeDigits_good hn hp, windTail_good hw⟩

theorem windSpeedTail_good {s d : List Char} {og : Option (List Char)} {r : List Char}
    (h : windSpeedTail s = some (d, og, r)) :
    GoodDigits d ∧ ∀ g, og = some g → GoodDigits g := by
  unfold windSpeedTail at h
  rw [pyAlt_eq_some] at h
  rcases h with h | ⟨-, h⟩
  · exact speedTry_good (by omega) h
  · exact speedTry_good (by omega) h

theorem windHere_good {s d : List Char} {og : Option (List Char)} {r : List Char}
    (h : windHere s = some (d, og, r)) :
    GoodDigits d ∧ ∀ g, og = some g → GoodDigits g := by
  unfold windHere at h
  rw [pyAlt_eq_some] at h
  rcases h with h | ⟨-, h⟩
  · rw [Option.bind_eq_some] at h
    obtain ⟨p, -, h⟩ := h
    exact windSpeedTail_good h
  · split at h
    · exact windSpeedTail_good h
    · exact absurd h (by simp)

theorem windSearch_good : ∀ {s d : List Char} {og : Option (List Char)},
    windSearch s = some (d, og) →
    GoodDigits d ∧ ∀ g, og = some g → GoodDigits g := by
  intro s
  induction s with
  | nil => intro d og h; simp [windSearch] at h
  | cons c cs ih =>
    intro d og h
    rw [windSearch, pyAlt_eq_some] at h
    rcases h with h | ⟨-, h⟩
    · rw [Option.map_eq_some'] at h
      obtain ⟨⟨d0, og0, r0⟩, hw, heq⟩ := h
      obtain ⟨h1, h2⟩ := Prod.mk.inj heq
      subst h1
      subst h2
      exact windHere_good hw
    · exact ih h

theorem windHereTaf_good {s d : List Char} {og : Option (List Char)} {r : List Char}
    (h : windHereTaf s = some (d, og, r)) :
    GoodDigits d ∧ ∀ g, og = some g → GoodDigits g := by
  unfold windHereTaf at h
  rw [pyAlt_eq_some] at h
  rcases h with h | ⟨-, h⟩
  · split at h
    · exact windSpeedTail_good h
    · exact absurd h (by simp)
  · rw [Option.bind_eq_some] at h
    obtain ⟨p, -, h⟩ := h
    exact windSpeedTail_good h

theorem lazyWind_good : ∀ {s d : List Char} {og : Option (List Char)} {r : List Char},
    lazyWind s = some (d, og, r) →
    GoodDigits d ∧ ∀ g, og = some g → GoodDigits g := by
  intro s
  induction s with
  | nil => intro d og r h; simp [lazyWind] at h
  | cons c cs ih =>
    intro d og r h
    rw [lazyWind, pyAlt_eq_some] at h
    rcases h with h | ⟨-, h⟩
    · exact windHereTaf_good h
    · split at h
      · exact absurd h (by simp)
      · exact ih h

theorem tafAfterMarker_good : ∀ {pre r1 p spd : List Char} {gst : Option (List Char)}
    {rest : List Char}, tafAfterMarker pre r1 = some (p, spd, gst, rest) →
    GoodDigits spd ∧ ∀ g, gst = some g → GoodDigits g := by
  intro pre r1 p spd gst rest h
  cases r1 with
  | nil => simp [tafAfterMarker] at h
  | cons c r2 =>
    rw [tafAfterMarker] at h
    split at h
    · rw [Option.map_eq_some'] at h
      obtain ⟨⟨spd0, og0, rest0⟩, hw, heq⟩ := h
      obtain ⟨-, h2⟩ := Prod.mk.inj heq
      obtain ⟨h3, h4⟩ := Prod.mk.inj h2
      obtain ⟨h5, h6⟩ := Prod.mk.inj h4
      subst h3
      subst h5
      exact lazyWind_good hw
    · exact absurd h (by simp)

theorem tafMatchHere_good {s pre spd : List Char} {gst : Option (List Char)} {rest : List Char}
    (h : tafMatchHere s = some (pre, spd, gst, rest)) :
    GoodDigits spd ∧ ∀ g, gst = some g → GoodDigits g := by
  unfold tafMatchHere at h
  rw [Option.bind_eq_some] at h
  obtain ⟨p, -, h⟩ := h
  exact tafAfterMarker_good h

theorem tafWindAllF_good : ∀ (fuel : Nat) (s : List Char)
    (x : List Char × List Char × Option (List Char)), x ∈ tafWindAllF fuel s →
    GoodDigits x.2.1 ∧ ∀ g, x.2.2 = some g → GoodDigits g := by
  intro fuel
  induction fuel with
  | zero => intro s x hx; simp [tafWindAllF] at hx
  | succ fuel ih =>
    intro s x hx
    cases s with
    | nil => simp [tafWindAllF] at hx
    | cons c cs =>
      rw [tafWindAllF] at hx
      cases hm : tafMatchHere (c :: cs) with
      | some q =>
        rw [hm] at hx
        obtain ⟨pre, spd, gst, rest⟩ := q
        rcases List.mem_cons.mp hx with rfl | hx
        · exact tafMatchHere_good hm
        · exact ih rest x hx
      | none => rw [hm] at hx; exact ih cs x hx

theorem tafWindAll_good {s : List Char} {x : List Char × List Char × Option (List Char)}
    (hx : x ∈ tafWindAll s) : GoodDigits x.2.1 ∧ ∀ g, x.2.2 = some g → GoodDigits g :=
  tafWindAllF_good (s.length + 1) s x hx

/-! ### Totality of the classifier -/

theorem isSome_bind {α β : Type} {x : Option α} {f : α → Option β} (hx : x.isSome = true)
    (hf : ∀ a, x = some a → (f a).isSome = true) : (x.bind f).isSome = true := by
  cases x with
  | none => simp at hx
  | some a => simpa using hf a rfl

theorem gustDesc_isSome {gst : Option (List Char)}
    (hg : ∀ g, gst = some g → GoodDigits g) : (gustDesc gst).isSome = true := by
  cases gst with
  | none => rfl
  | some g =>
    have hv := pyInt_good (hg g rfl)
    simp [gustDesc, hv]

theorem codigoFindings_isSome (msgU : String) (cd : String × String) :
    (codigoFindings msgU cd).isSome = true := by
  unfold codigoFindings
  split
  · split
    · split <;> rfl
    · split
      · cases hv : visSearch msgU.data with
        | none => split <;> rfl
        | some vd =>
          have h := pyInt_good (visSearch_good hv)
          simp only [Option.elim_some, h, Option.some_bind]
          split <;> rfl
      · split
        · rfl
        · split
          · cases hcb : cbSearch msgU.data with
            | none => rfl
            | some hd =>
              have h := pyInt_good (cbSearch_good hcb)
              simp only [Option.elim_some, h, Option.some_bind]
              rfl
          · rfl
  · rfl

theorem codigosFindingsAux_isSome (msgU : String) :
    ∀ l : List (String × String), (codigosFindingsAux msgU l).isSome = true := by
  intro l
  induction l with
  | nil => rfl
  | cons cd rest ih =>
    rw [codigosFindingsAux]
    apply isSome_bind (codigoFindings_isSome msgU cd)
    intro a _
    apply isSome_bind ih
    intro b _
    rfl

theorem windBlock_isSome (msgU : String) : (windBlock msgU).isSome = true := by
  unfold windBlock
  cases hw : windSearch msgU.data with
  | none => rfl
  | some p =>
    obtain ⟨spd, gst⟩ := p
    obtain ⟨h1, h2⟩ := windSearch_good hw
    have hs := pyInt_good h1
    simp only [Option.elim_some, hs, Option.some_bind]
    apply isSome_bind (gustDesc_isSome h2)
    intro d2 _
    rfl

theorem tafCodigoFindings_isSome (msgU : String) (cd : String × String) :
    (tafCodigoFindings msgU cd).isSome = true := by
  unfold tafCodigoFindings
  apply isSome_bind
  · split
    · cases hv : visSearch msgU.data with
      | none => split <;> rfl
      | some vd =>
        have h := pyInt_good (visSearch_good hv)
        simp only [Option.elim_some, h, Option.some_bind]
        split
        · rfl
        · split <;> rfl
    · rfl
  · intro a _
    rfl

theorem tafCodigosAux_isSome (msgU : String) :
    ∀ l : List (String × String), (tafCodigosAux msgU l).isSome = true := by
  intro l
  induction l with
  | nil => rfl
  | cons cd rest ih =>
    rw [tafCodigosAux]
    apply isSome_bind (tafCodigoFindings_isSome msgU cd)
    intro a _
    apply isSome_bind ih
    intro b _
    rfl

theorem tafWindFindings_isSome :
    ∀ l : List (List Char × List Char × Option (List Char)),
    (∀ x ∈ l, GoodDigits x.2.1 ∧ ∀ g, x.2.2 = some g → GoodDigits g) →
    (tafWindFindings l).isSome = true := by
  intro l
  induction l with
  | nil => intro _; rfl
  | cons q rest ih =>
    intro hl
    obtain ⟨pre, spd, gst⟩ := q
    obtain ⟨h1, h2⟩ := hl _ (List.mem_cons_self _ _)
    rw [tafWindFindings]
    apply isSome_bind
    · rw [pyInt_good h1]
      rfl
    intro s _
    apply isSome_bind (gustDesc_isSome h2)
    intro d2 _
    apply isSome_bind (ih (fun x hx => hl x (List.mem_cons_of_mem _ hx)))
    intro more _
    rfl

theorem tafPart_isSome (msgU tipoU : String) : (tafPart msgU tipoU).isSome = true := by
  unfold tafPart
  split
  · apply isSome_bind (tafCodigosAux_isSome _ _)
    intro c1 _
    apply isSome_bind (tafWindFindings_isSome _ (fun x hx => tafWindAll_good hx))
    intro c2 _
    rfl
  · rfl

theorem analisarM_isSome (m t : String) : (analisarM m t).isSome = true := by
  unfold analisarM
  rw [Option.isSome_map']
  split
  · apply isSome_bind (codigosFindingsAux_isSome _ _)
    intro a _
    apply isSome_bind (windBlock_isSome _)
    intro b _
    apply isSome_bind (tafPart_isSome _ _)
    intro c _
    rfl
  · rfl

/-! ### Membership in the classifier result -/

theorem mem_setList {x : String} : ∀ {l : List String}, x ∈ setList l ↔ x ∈ l := by
  intro l
  induction l with
  | nil => simp [setList]
  | cons a as ih =>
    rw [setList]
    split
    · rename_i h
      rw [ih, List.mem_cons]
      constructor
      · exact Or.inr
      · rintro (rfl | hx)
        · exact ih.mp h
        · exact hx
    · rw [List.mem_cons, List.mem_cons, ih]

theorem analisar_eq_getD (m t : String) {l : List String} (h : analisarM m t = some l) :
    analisar_mensagem_meteorologica m t = l := by
  unfold analisar_mensagem_meteorologica
  rw [h]
  rfl

theorem analisar_eq_of {m t : String} {a b c : List String}
    (hflag : (pyIn "METAR" (pyUpper t) || pyIn "SPECI" (pyUpper t) || pyIn "TAF" (pyUpper t)) = true)
    (ha : codigosFindingsAux (pyUpper m) CODIGOS_METAR_TAF_MAP = some a)
    (hb : windBlock (pyUpper m) = some b)
    (hc : tafPart (pyUpper m) (pyUpper t) = some c) :
    analisar_mensagem_meteorologica m t =
      setList ((a ++ b ++ c) ++ avisoPart (pyUpper m) (pyUpper t)) := by
  apply analisar_eq_getD
  unfold analisarM
  rw [if_pos hflag, ha, Option.some_bind, hb, Option.some_bind, hc, Option.some_bind]
  rfl

theorem mem_codigosFindingsAux (msgU f : String) :
    ∀ l : List (String × String),
    (∃ cd ∈ l, ∃ fl, codigoFindings msgU cd = some fl ∧ f ∈ fl) →
    ∃ a, codigosFindingsAux msgU l = some a ∧ f ∈ a := by
  intro l
  induction l with
  | nil =>
    rintro ⟨cd, h, -⟩
    cases h
  | cons hd tl ih =>
    rintro ⟨cd, hcd, fl, hfl, hf⟩
    rw [codigosFindingsAux]
    rcases List.mem_cons.mp hcd with rfl | hcd'
    · rw [hfl, Option.some_bind]
      obtain ⟨b, hb⟩ := Option.isSome_iff_exists.mp (codigosFindingsAux_isSome msgU tl)
      rw [hb, Option.some_bind]
      exact ⟨fl ++ b, rfl, List.mem_append_left _ hf⟩
    · obtain ⟨a, ha, hfa⟩ := ih ⟨cd, hcd', fl, hfl, hf⟩
      obtain ⟨x, hx⟩ := Option.isSome_iff_exists.mp (codigoFindings_isSome msgU hd)
      rw [hx, Option.some_bind, ha, Option.some_bind]
      exact ⟨x ++ a, rfl, List.mem_append_right _ hfa⟩

theorem mem_tafCodigosAux (msgU f : String) :
    ∀ l : List (String × String),
    (∃ cd ∈ l, ∃ fl, tafCodigoFindings msgU cd = some fl ∧ f ∈ fl) →
    ∃ a, tafCodigosAux msgU l = some a ∧ f ∈ a := by
  intro l
  induction l with
  | nil =>
    rintro ⟨cd, h, -⟩
    cases h
  | cons hd tl ih =>
    rintro ⟨cd, hcd, fl, hfl, hf⟩
    rw [tafCodigosAux]
    rcases List.mem_cons.mp hcd with rfl | hcd'
    · rw [hfl, Option.some_bind]
      obtain ⟨b, hb⟩ := Option.isSome_iff_exists.mp (tafCodigosAux_isSome msgU tl)
      rw [hb, Option.some_bind]
      exact ⟨fl ++ b, rfl, List.mem_append_left _ hf⟩
    · obtain ⟨a, ha, hfa⟩ := ih ⟨cd, hcd', fl, hfl, hf⟩
      obtain ⟨x, hx⟩ := Option.isSome_iff_exists.mp (tafCodigoFindings_isSome msgU hd)
      rw [hx, Option.some_bind, ha, Option.some_bind]
      exact ⟨x ++ a, rfl, List.mem_append_right _ hfa⟩

/-- A finding appended by the per-code loop is in the classifier result. -/
theorem mem_analisar_of_codigo {m t f : String}
    (hflag : (pyIn "METAR" (pyUpper t) || pyIn "SPECI" (pyUpper t) || pyIn "TAF" (pyUpper t)) = true)
    {cd : String × String} (hcd : cd ∈ CODIGOS_METAR_TAF_MAP)
    {fl : List String} (hfl : codigoFindings (pyUpper m) cd = some fl) (hf : f ∈ fl) :
    f ∈ analisar_mensagem_meteorologica m t := by
  obtain ⟨a, ha, hfa⟩ := mem_codigosFindingsAux (pyUpper m) f _ ⟨cd, hcd, fl, hfl, hf⟩
  obtain ⟨b, hb⟩ := Option.isSome_iff_exists.mp (windBlock_isSome (pyUpper m))
  obtain ⟨c, hc⟩ := Option.isSome_iff_exists.mp (tafPart_isSome (pyUpper m) (pyUpper t))
  rw [analisar_eq_of hflag ha hb hc, mem_setList]
  exact List.mem_append_left _ (List.mem_append_left _ (List.mem_append_left _ hfa))

/-- A finding appended by the base wind rule is in the classifier result. -/
theorem mem_analisar_of_wind {m t f : String}
    (hflag : (pyIn "METAR" (pyUpper t) || pyIn "SPECI" (pyUpper t) || pyIn "TAF" (pyUpper t)) = true)
    {fl : List String} (hfl : windBlock (pyUpper m) = some fl) (hf : f ∈ fl) :
    f ∈ analisar_mensagem_meteorologica m t := by
  obtain ⟨a, ha⟩ :=
    Option.isSome_iff_exists.mp (codigosFindingsAux_isSome (pyUpper m) CODIGOS_METAR_TAF_MAP)
  obtain ⟨c, hc⟩ := Option.isSome_iff_exists.mp (tafPart_isSome (pyUpper m) (pyUpper t))
  rw [analisar_eq_of hflag ha hfl hc, mem_setList]
  exact List.mem_append_left _ (List.mem_append_left _ (List.mem_append_right _ hf))

/-- A finding appended by the TAF per-code loop is in the classifier result. -/
theorem mem_analisar_of_tafcodigo {m t f : String}
    (hTAF : pyIn "TAF" (pyUpper t) = true)
    {cd : String × String} (hcd : cd ∈ CODIGOS_METAR_TAF_MAP)
    {fl : List String} (hfl : tafCodigoFindings (pyUpper m) cd = some fl) (hf : f ∈ fl) :
    f ∈ analisar_mensagem_meteorologica m t := by
  have hflag : (pyIn "METAR" (pyUpper t) || pyIn "SPECI" (pyUpper t) || pyIn "TAF" (pyUpper t)) = true := by
    rw [hTAF, Bool.or_true]
  obtain ⟨a, ha⟩ :=
    Option.isSome_iff_exists.mp (codigosFindingsAux_isSome (pyUpper m) CODIGOS_METAR_TAF_MAP)
  obtain ⟨b, hb⟩ := Option.isSome_iff_exists.mp (windBlock_isSome (pyUpper m))
  obtain ⟨c1, hc1, hfc1⟩ := mem_tafCodigosAux (pyUpper m) f _ ⟨cd, hcd, fl, hfl, hf⟩
  obtain ⟨c2, hc2⟩ :=
    Option.isSome_iff_exists.mp
      (tafWindFindings_isSome _ (fun x hx => tafWindAll_good hx))
  have hc : tafPart (pyUpper m) (pyUpper t) = some (c1 ++ c2) := by
    unfold tafPart
    rw [if_pos hTAF, hc1, Option.some_bind, hc2, Option.some_bind]
  rw [analisar_eq_of hflag ha hb hc, mem_setList]
  exact List.mem_append_left _
    (List.mem_append_right _ (List.mem_append_left _ hfc1))

/-- For the fixed bulletin type `"AVISO"` the classifier result is the
deduplicated warning part alone. -/
theorem analisar_aviso (m : String) :
    analisar_mensagem_meteorologica m "AVISO" = setList (avisoPart (pyUpper m) "AVISO") := by
  apply analisar_eq_getD
  unfold analisarM
  rw [if_neg]
  · rfl
  · decide

/-! ### Helper lemmas for the individual claims -/

theorem str_eq_of_data {a b : String} (h : a.data = b.data) : a = b := by
  cases a
  cases b
  exact congrArg String.mk h

/-- Merging the string literals of the two-component wind finding. -/
theorem wind_join (v w : String) :
    "Vento Médio de " ++ v ++ "KT" ++ " e " ++ ("Rajadas de " ++ w ++ "KT") =
      "Vento Médio de " ++ v ++ "KT e Rajadas de " ++ w ++ "KT" := by
  apply str_eq_of_data
  simp only [String.data_append, List.append_assoc]
  rfl

theorem lowCeilHere_nil (code : List Char) : lowCeilHere code [] = false := by
  unfold lowCeilHere
  cases code <;> rfl

theorem lowCeilSearch_of_here : ∀ (a : List Char) {code r : List Char},
    lowCeilHere code r = true → lowCeilSearch code (a ++ r) = true := by
  intro a
  induction a with
  | nil =>
    intro code r h
    cases r with
    | nil => rw [lowCeilHere_nil] at h; exact absurd h (by simp)
    | cons c cs => rw [List.nil_append, lowCeilSearch, h, Bool.true_or]
  | cons x xs ih =>
    intro code r h
    rw [List.cons_append, lowCeilSearch, ih h, Bool.or_true]

theorem lowCeilSearch_of_contains {code s : List Char} {d : Char}
    (h : containsSub (code ++ ['0', '0', d]) s = true) (h1 : '1' ≤ d) (h5 : d ≤ '5') :
    lowCeilSearch code s = true := by
  obtain ⟨a, b, rfl⟩ := containsSub_iff.mp h
  have hsplit : a ++ (code ++ ['0', '0', d]) ++ b = a ++ ((code ++ ['0', '0']) ++ (d :: b)) := by
    simp
  rw [hsplit]
  apply lowCeilSearch_of_here
  unfold lowCeilHere
  rw [startsWith_append_self, Bool.true_and]
  have hdrop : ((code ++ ['0', '0']) ++ (d :: b)).drop (code.length + 2) = d :: b := by
    have h2 : (code ++ ['0', '0']).length = code.length + 2 := by simp
    rw [← h2]
    exact List.drop_left _ _
  rw [hdrop]
  simp [h1, h5]

theorem windBlock_both {msgU : String} {spd g : List Char}
    (hw : windSearch msgU.data = some (spd, some g))
    (hs : 20 < natDigits spd) (hg : 20 < natDigits g) :
    windBlock msgU = some ["Vento Médio de " ++ toString (natDigits spd) ++
      "KT e Rajadas de " ++ toString (natDigits g) ++ "KT"] := by
  obtain ⟨h1, h2⟩ := windSearch_good hw
  unfold windBlock
  rw [hw, Option.elim_some, pyInt_good h1, Option.some_bind]
  have hgd : gustDesc (some g) = some ["Rajadas de " ++ toString (natDigits g) ++ "KT"] := by
    unfold gustDesc
    rw [Option.elim_some, pyInt_good (h2 g rfl), Option.some_bind, if_pos hg]
  rw [hgd, Option.some_bind, if_pos hs]
  rw [← wind_join (toString (natDigits spd)) (toString (natDigits g))]
  rfl

theorem windBlock_low {msgU : String} {spd : List Char} {gst : Option (List Char)}
    (hw : windSearch msgU.data = some (spd, gst)) (hs : ¬ 20 < natDigits spd)
    (hgd : gustDesc gst = some []) : windBlock msgU = some [] := by
  obtain ⟨h1, _⟩ := windSearch_good hw
  unfold windBlock
  rw [hw, Option.elim_some, pyInt_good h1, Option.some_bind, hgd, Option.some_bind, if_neg hs]
  rfl

theorem gustDesc_none : gustDesc none = some [] := rfl

theorem gustDesc_low {g : List Char} (hgood : GoodDigits g) (hg : ¬ 20 < natDigits g) :
    gustDesc (some g) = some [] := by
  unfold gustDesc
  rw [Option.elim_some, pyInt_good hgood, Option.some_bind, if_neg hg]

/-- The membership content of one TAF per-code step, for the three trend
prefixes. -/
theorem mem_tafCodigoFindings_tempo {msgU : String} {cd : String × String}
    (hT : pyIn ("TEMPO " ++ cd.1) msgU = true) {fl : List String}
    (hfl : tafCodigoFindings msgU cd = some fl) : ("PREVISÃO TEMPO: " ++ cd.2) ∈ fl := by
  unfold tafCodigoFindings at hfl
  rw [Option.bind_eq_some] at hfl
  obtain ⟨l5, -, hfl⟩ := hfl
  obtain rfl := Option.some.inj hfl
  apply List.mem_append_left
  apply List.mem_append_left
  apply List.mem_append_left
  apply List.mem_append_right
  rw [if_pos hT]
  exact List.mem_singleton.mpr rfl

theorem mem_tafCodigoFindings_becmg {msgU : String} {cd : String × String}
    (hT : pyIn ("BECMG " ++ cd.1) msgU = true) {fl : List String}
    (hfl : tafCodigoFindings msgU cd = some fl) : ("PREVISÃO BECMG: " ++ cd.2) ∈ fl := by
  unfold tafCodigoFindings at hfl
  rw [Option.bind_eq_some] at hfl
  obtain ⟨l5, -, hfl⟩ := hfl
  obtain rfl := Option.some.inj hfl
  apply List.mem_append_left
  apply List.mem_append_left
  apply List.mem_append_right
  rw [if_pos hT]
  exact List.mem_singleton.mpr rfl

theorem mem_tafCodigoFindings_prob {msgU : String} {cd : String × String}
    (hT : (pyIn ("PROB30 " ++ cd.1) msgU || pyIn ("PROB40 " ++ cd.1) msgU) = true)
    {fl : List String} (hfl : tafCodigoFindings msgU cd = some fl) :
    ("PREVISÃO PROB: " ++ cd.2) ∈ fl := by
  unfold tafCodigoFindings at hfl
  rw [Option.bind_eq_some] at hfl
  obtain ⟨l5, -, hfl⟩ := hfl
  obtain rfl := Option.some.inj hfl
  apply List.mem_append_left
  apply List.mem_append_left
  apply List.mem_append_left
  apply List.mem_append_left
  rw [if_pos hT]
  exact List.mem_singleton.mpr rfl

theorem mem_avisoBlock_ws {msgU : String} (h : pyIn "WS" msgU = true) :
    "Tesoura de Vento (Wind Shear)" ∈ avisoBlock msgU := by
  unfold avisoBlock
  rw [h]
  simp

theorem cacheMem_append_self (h : Int) (c : List (Int × Nat)) (t0 : Nat) :
    cacheMem h (c ++ [(h, t0)]) = true := by
  simp [cacheMem, List.any_append]

theorem cacheMem_limpar_keep {h : Int} {t0 now2 : Nat} {c : List (Int × Nat)}
    (hmem : (h, t0) ∈ c) (hk : ¬ 86400 < now2 - t0) :
    cacheMem h (limparCache now2 c) = true := by
  unfold cacheMem limparCache
  rw [List.any_eq_true]
  refine ⟨(h, t0), List.mem_filter.mpr ⟨hmem, by simp [hk]⟩, by simp⟩

theorem cacheMem_limpar_drop {h : Int} {t0 now2 : Nat} {c : List (Int × Nat)}
    (hnm : cacheMem h c = false) (hd : 86400 < now2 - t0) :
    cacheMem h (limparCache now2 (c ++ [(h, t0)])) = false := by
  unfold cacheMem limparCache
  rw [Bool.eq_false_iff]
  intro hx
  rw [List.any_eq_true] at hx
  obtain ⟨x, hxm, hxp⟩ := hx
  rw [List.mem_filter] at hxm
  obtain ⟨hxc, hxf⟩ := hxm
  rcases List.mem_append.mp hxc with hxc | hxc
  · have : cacheMem h c = true := by
      unfold cacheMem
      rw [List.any_eq_true]
      exact ⟨x, hxc, hxp⟩
    rw [hnm] at this
    exact absurd this (by simp)
  · rw [List.mem_singleton] at hxc
    subst hxc
    simp at hxf
    omega

/-! ### The claims -/

/-- Claim C1: the spec requires word-boundary ash detection — a bulletin
whose text contains "VALID" but no standalone `VA` token must not yield the
volcanic-ash finding, while a standalone `VA` token must.  The code
violates the first half: its test `"VA" in mensagem_upper` is a plain
substring check that matches inside the word "VALID", so both the
METAR/SPECI/TAF path and the AVISO path report "Cinzas Vulcânicas" for
ash-free bulletins (shown here on the bulletin "VALID" and on one of the
program's own simulated surface-wind warnings, neither of which has a
standalone ash token). -/
theorem claim_C1_substring_ash :
    hasStandaloneVA "VALID" = false ∧
    "Cinzas Vulcânicas" ∈ analisar_mensagem_meteorologica "VALID" "METAR" ∧
    hasStandaloneVA
      "SBPA SBML/SBTA/SBAE AD WRNG 35 VALID 281310/281710 SFC WSPD 20KT MAX 42 FCST NC=" =
      false ∧
    "Cinzas Vulcânicas" ∈ analisar_mensagem_meteorologica
      "SBPA SBML/SBTA/SBAE AD WRNG 35 VALID 281310/281710 SFC WSPD 20KT MAX 42 FCST NC="
      "AVISO" := by
  refine ⟨by decide, by decide, by decide, by decide⟩

/-- Claim C2: once a bulletin has produced an outbound alert and its hash
was recorded, presenting byte-identical text again to any cache state that
still holds the hash sends no alert; eviction keeps the entry while at
most 24 hours (86400 s) have passed, and after more than 24 hours the
entry is evicted and the same bulletin alerts again. -/
theorem claim_C2_dedup :
    ∀ (pyHash : String → Int) (cache cache2 : List (Int × Nat)) (now now2 : Nat) (m t : String),
    processar_mensagem pyHash cache now m t = (true, cache2) →
    (∀ c : List (Int × Nat), cacheMem (calcular_hash_mensagem pyHash m) c = true →
        processar_mensagem pyHash c now2 m t = (false, c))
    ∧ cacheMem (calcular_hash_mensagem pyHash m) cache2 = true
    ∧ (¬ 86400 < now2 - now →
        cacheMem (calcular_hash_mensagem pyHash m) (limparCache now2 cache2) = true)
    ∧ (86400 < now2 - now →
        cacheMem (calcular_hash_mensagem pyHash m) (limparCache now2 cache2) = false
        ∧ (processar_mensagem pyHash (limparCache now2 cache2) now2 m t).1 = true) := by
  intro pyHash cache cache2 now now2 m t hsent
  unfold processar_mensagem at hsent
  by_cases hm : cacheMem (calcular_hash_mensagem pyHash m) cache = true
  · rw [if_pos hm] at hsent
    exact absurd (congrArg Prod.fst hsent) (by simp)
  · rw [if_neg hm] at hsent
    by_cases hcond : analisar_mensagem_meteorologica m t ≠ [] ∧
        "Conteúdo não mapeado" ∉ analisar_mensagem_meteorologica m t
    · rw [if_pos hcond] at hsent
      have hc2 : cache2 = cacheSet (calcular_hash_mensagem pyHash m) now cache :=
        (Prod.mk.inj hsent).2.symm
      have hceq : cache2 = cache ++ [(calcular_hash_mensagem pyHash m, now)] := by
        rw [hc2]
        unfold cacheSet
        rw [if_neg hm]
      have hmemc2 : (calcular_hash_mensagem pyHash m, now) ∈ cache2 := by
        rw [hceq]
        exact List.mem_append_right _ (List.mem_singleton.mpr rfl)
      refine ⟨?_, ?_, ?_, ?_⟩
      · intro c hc
        unfold processar_mensagem
        rw [if_pos hc]
      · rw [hceq]
        exact cacheMem_append_self _ _ _
      · intro hkeep
        exact cacheMem_limpar_keep hmemc2 hkeep
      · intro hdrop
        have hmf : cacheMem (calcular_hash_mensagem pyHash m) cache = false := by
          simpa using hm
        have hgone : cacheMem (calcular_hash_mensagem pyHash m)
            (limparCache now2 cache2) = false := by
          rw [hceq]
          exact cacheMem_limpar_drop hmf hdrop
        refine ⟨hgone, ?_⟩
        unfold processar_mensagem
        rw [if_neg (by rw [hgone]; simp), if_pos hcond]
    · rw [if_neg hcond] at hsent
      exact absurd (congrArg Prod.fst hsent) (by simp)

/-- Claim C2, witnessed on a concrete run: the bulletin "TS" alerts into an
empty cache, is suppressed while cached, and after a 90000-second-old entry
is evicted it alerts again. -/
theorem claim_C2_dedup_witness :
    processar_mensagem (fun _ => 0) [(0, 0)] 90000 "TS" "METAR" = (false, [(0, 0)])
    ∧ cacheMem 0 (limparCache 90000 [(0, 0)]) = false
    ∧ (processar_mensagem (fun _ => 0) (limparCache 90000 [(0, 0)]) 90000 "TS" "METAR").1 =
      true := by
  have h := claim_C2_dedup (fun _ => 0) [] [(0, 0)] 0 90000 "TS" "METAR" (by decide)
  exact ⟨h.1 [(0, 0)] (by decide), (h.2.2.2 (by omega)).1, (h.2.2.2 (by omega)).2⟩

/-- Claim C3: the recorded content hash is Python's builtin `hash`, which
is salted per interpreter process; in the model, two runs whose hash
functions differ on the same `rawText` (as two processes generically do)
both send an outbound alert for it inside the retention window, so
deduplication does not survive a process restart. -/
theorem claim_C3_hash_not_stable :
    processar_mensagem (fun s => (s.length : Int)) [] 0 "TS" "METAR" = (true, [(2, 0)]) ∧
    (processar_mensagem (fun s => (s.length : Int) + 1) [(2, 0)] 3600 "TS" "METAR").1 =
      true := by
  decide

/-- Claim C4 (amended): the wind threshold is exclusive — a base wind group
yields a finding only for values strictly above 20 kt; at 20 kt or below
(sustained, and gust when present) no wind finding is produced; when both
sustained and gust are strictly above 20 kt the single finding reports
both, joined with " e ". -/
theorem claim_C4_wind_threshold :
    (∀ (m : String) (spd g : List Char),
      windSearch (pyUpper m).data = some (spd, some g) →
      20 < natDigits spd → 20 < natDigits g →
      ("Vento Médio de " ++ toString (natDigits spd) ++ "KT e Rajadas de " ++
        toString (natDigits g) ++ "KT") ∈ analisar_mensagem_meteorologica m "METAR")
    ∧ (∀ (m : String) (spd : List Char),
        windSearch (pyUpper m).data = some (spd, none) → ¬ 20 < natDigits spd →
        windBlock (pyUpper m) = some [])
    ∧ (∀ (m : String) (spd g : List Char),
        windSearch (pyUpper m).data = some (spd, some g) → ¬ 20 < natDigits spd →
        ¬ 20 < natDigits g → windBlock (pyUpper m) = some []) := by
  refine ⟨?_, ?_, ?_⟩
  · intro m spd g hw hs hg
    exact mem_analisar_of_wind (t := "METAR") (by decide) (windBlock_both hw hs hg)
      (List.mem_singleton.mpr rfl)
  · intro m spd hw hs
    exact windBlock_low hw hs gustDesc_none
  · intro m spd g hw hs hg
    exact windBlock_low hw hs (gustDesc_low ((windSearch_good hw).2 g rfl) hg)

/-- Claim C4, counterexample to the claim as stated: a bulletin whose wind
group reads exactly 20 kt produces no wind finding (the threshold is not
inclusive). -/
theorem claim_C4_counterexample :
    windSearch (pyUpper "36020KT").data = some (['2', '0'], none) ∧
    natDigits ['2', '0'] = 20 ∧
    analisar_mensagem_meteorologica "36020KT" "METAR" = [] := by
  decide

/-- Claim C4, witnessed at 25 kt sustained with 40 kt gusts (single joined
finding) and at 15 kt (no finding). -/
theorem claim_C4_wind_threshold_witness :
    "Vento Médio de 25KT e Rajadas de 40KT" ∈
      analisar_mensagem_meteorologica "36025G40KT" "METAR"
    ∧ windBlock (pyUpper "36015KT") = some [] := by
  constructor
  · exact claim_C4_wind_threshold.1 "36025G40KT" ['2', '5'] ['4', '0']
      (by decide) (by decide) (by decide)
  · exact claim_C4_wind_threshold.2.1 "36015KT" ['1', '5'] (by decide) (by decide)

/-- Claim C5 (amended): an AVISO bulletin in which no hazard keyword is
recognized still gets the generic "Conteúdo não mapeado" finding from the
classifier, but the pipeline then deliberately sends no outbound alert for
it (source line 558 filters that finding out). -/
theorem claim_C5_unmapped_warning :
    ∀ m : String, avisoBlock (pyUpper m) = [] →
    analisar_mensagem_meteorologica m "AVISO" = ["Conteúdo não mapeado"] ∧
    ∀ (pyHash : String → Int) (cache : List (Int × Nat)) (now : Nat),
      (processar_mensagem pyHash cache now m "AVISO").1 = false := by
  intro m hab
  have hres : analisar_mensagem_meteorologica m "AVISO" = ["Conteúdo não mapeado"] := by
    rw [analisar_aviso]
    unfold avisoPart
    rw [if_pos (by decide : pyIn "AVISO" "AVISO" = true), hab]
    rfl
  refine ⟨hres, ?_⟩
  intro pyHash cache now
  unfold processar_mensagem
  by_cases hm : cacheMem (calcular_hash_mensagem pyHash m) cache = true
  · rw [if_pos hm]
  · rw [if_neg hm, if_neg]
    rintro ⟨-, h2⟩
    exact h2 (by rw [hres]; exact List.mem_singleton.mpr rfl)

/-- Claim C5, counterexample to the claim as stated: on the keyword-free
warning "AD WRNG 7" the classifier does return the generic finding, yet
the pipeline sends no alert (it would have to send one for the claim to
hold). -/
theorem claim_C5_counterexample :
    analisar_mensagem_meteorologica "AD WRNG 7" "AVISO" = ["Conteúdo não mapeado"] ∧
    processar_mensagem (fun _ => 0) [] 0 "AD WRNG 7" "AVISO" = (false, []) := by
  decide

/-- Claim C5, witnessed on the keyword-free warning "AD WRNG 7". -/
theorem claim_C5_unmapped_warning_witness :
    analisar_mensagem_meteorologica "AD WRNG 7" "AVISO" = ["Conteúdo não mapeado"] ∧
    (processar_mensagem (fun _ => 0) [] 0 "AD WRNG 7" "AVISO").1 = false := by
  have h := claim_C5_unmapped_warning "AD WRNG 7" (by decide)
  exact ⟨h.1, h.2 (fun _ => 0) [] 0⟩

/-- Claim C6 (amended): a trend-prefixed phenomenon finding is produced
exactly for codes standing immediately after the trend marker plus a
single space — `"TEMPO <code>"`, `"BECMG <code>"`, `"PROB30 <code>"` or
`"PROB40 <code>"` occurring as a substring of the upper-cased bulletin —
not for a phenomenon code located merely anywhere inside the trend
block. -/
theorem claim_C6_trend_adjacency :
    (∀ (m : String) (cd : String × String), cd ∈ CODIGOS_METAR_TAF_MAP →
      pyIn ("TEMPO " ++ cd.1) (pyUpper m) = true →
      ("PREVISÃO TEMPO: " ++ cd.2) ∈ analisar_mensagem_meteorologica m "TAF")
    ∧ (∀ (m : String) (cd : String × String), cd ∈ CODIGOS_METAR_TAF_MAP →
      pyIn ("BECMG " ++ cd.1) (pyUpper m) = true →
      ("PREVISÃO BECMG: " ++ cd.2) ∈ analisar_mensagem_meteorologica m "TAF")
    ∧ (∀ (m : String) (cd : String × String), cd ∈ CODIGOS_METAR_TAF_MAP →
      (pyIn ("PROB30 " ++ cd.1) (pyUpper m) || pyIn ("PROB40 " ++ cd.1) (pyUpper m)) = true →
      ("PREVISÃO PROB: " ++ cd.2) ∈ analisar_mensagem_meteorologica m "TAF") := by
  refine ⟨?_, ?_, ?_⟩ <;> intro m cd hcd hT <;>
    obtain ⟨fl, hfl⟩ := Option.isSome_iff_exists.mp (tafCodigoFindings_isSome (pyUpper m) cd)
  · exact mem_analisar_of_tafcodigo (by decide) hcd hfl (mem_tafCodigoFindings_tempo hT hfl)
  · exact mem_analisar_of_tafcodigo (by decide) hcd hfl (mem_tafCodigoFindings_becmg hT hfl)
  · exact mem_analisar_of_tafcodigo (by decide) hcd hfl (mem_tafCodigoFindings_prob hT hfl)

/-- Claim C6, counterexample to the claim as stated: a TAF whose TEMPO
block contains a thunderstorm code (inside "TSRA", not adjacent to the
marker) yields the unprefixed base finding but no "PREVISÃO TEMPO:"
finding. -/
theorem claim_C6_counterexample :
    pyIn "TEMPO" (pyUpper "TEMPO 2813/2815 2000 TSRA") = true ∧
    pyIn "TS" (pyUpper "TEMPO 2813/2815 2000 TSRA") = true ∧
    "Trovoada" ∈ analisar_mensagem_meteorologica "TEMPO 2813/2815 2000 TSRA" "TAF" ∧
    "PREVISÃO TEMPO: Trovoada" ∉
      analisar_mensagem_meteorologica "TEMPO 2813/2815 2000 TSRA" "TAF" := by
  decide

/-- Claim C6, witnessed on a TAF with the code directly after the marker. -/
theorem claim_C6_trend_adjacency_witness :
    "PREVISÃO TEMPO: Trovoada" ∈ analisar_mensagem_meteorologica "TAF TEMPO TS" "TAF" :=
  claim_C6_trend_adjacency.1 "TAF TEMPO TS" ("TS", "Trovoada") (by decide) (by decide)

/-- Claim C7: a covering-cloud code (`BKN`/`OVC`) immediately followed by a
3-digit height 001–005 yields the low-ceiling finding; with height 006 the
finding is not produced (shown on bulletins whose only layer is at 006). -/
theorem claim_C7_ceiling :
    (∀ (m : String) (d : Char), '1' ≤ d → d ≤ '5' →
      pyIn (String.mk ("BKN00".data ++ [d])) (pyUpper m) = true →
      "Parcialmente Nublado (Broken) (TETO BAIXO < 600FT)" ∈
        analisar_mensagem_meteorologica m "METAR")
    ∧ (∀ (m : String) (d : Char), '1' ≤ d → d ≤ '5' →
      pyIn (String.mk ("OVC00".data ++ [d])) (pyUpper m) = true →
      "Nublado (Overcast) (TETO BAIXO < 600FT)" ∈
        analisar_mensagem_meteorologica m "METAR")
    ∧ analisar_mensagem_meteorologica "BKN006" "METAR" = []
    ∧ analisar_mensagem_meteorologica "OVC006" "METAR" = [] := by
  refine ⟨?_, ?_, by decide, by decide⟩
  · intro m d h1 h5 hin
    have hlc : lowCeilSearch "BKN".data (pyUpper m).data = true :=
      lowCeilSearch_of_contains hin h1 h5
    have hbn : pyIn "BKN" (pyUpper m) = true := pyIn_trans (by rfl) hin
    have hfl : codigoFindings (pyUpper m) ("BKN", "Parcialmente Nublado (Broken)") =
        some ["Parcialmente Nublado (Broken) (TETO BAIXO < 600FT)"] := by
      unfold codigoFindings
      rw [if_pos hbn, if_pos (Or.inr rfl), if_pos hlc]
      rfl
    exact mem_analisar_of_codigo (by decide) (by decide) hfl (List.mem_singleton.mpr rfl)
  · intro m d h1 h5 hin
    have hlc : lowCeilSearch "OVC".data (pyUpper m).data = true :=
      lowCeilSearch_of_contains hin h1 h5
    have hbn : pyIn "OVC" (pyUpper m) = true := pyIn_trans (by rfl) hin
    have hfl : codigoFindings (pyUpper m) ("OVC", "Nublado (Overcast)") =
        some ["Nublado (Overcast) (TETO BAIXO < 600FT)"] := by
      unfold codigoFindings
      rw [if_pos hbn, if_pos (Or.inl rfl), if_pos hlc]
      rfl
    exact mem_analisar_of_codigo (by decide) (by decide) hfl (List.mem_singleton.mpr rfl)

/-- Claim C7, witnessed at the 500 ft and 100 ft boundaries. -/
theorem claim_C7_ceiling_witness :
    "Parcialmente Nublado (Broken) (TETO BAIXO < 600FT)" ∈
      analisar_mensagem_meteorologica "BKN005" "METAR"
    ∧ "Nublado (Overcast) (TETO BAIXO < 600FT)" ∈
      analisar_mensagem_meteorologica "OVC001" "METAR" :=
  ⟨claim_C7_ceiling.1 "BKN005" '5' (by decide) (by decide) (by decide),
   claim_C7_ceiling.2.1 "OVC001" '1' (by decide) (by decide) (by decide)⟩

/-- Claim C8: a METAR/SPECI/TAF bulletin containing the fog code `FG` but
no standalone 4-digit visibility group still yields the bare "Nevoeiro"
finding. -/
theorem claim_C8_fog_fallback :
    ∀ m t : String,
    (pyIn "METAR" (pyUpper t) || pyIn "SPECI" (pyUpper t) || pyIn "TAF" (pyUpper t)) = true →
    pyIn "FG" (pyUpper m) = true →
    visSearch (pyUpper m).data = none →
    "Nevoeiro" ∈ analisar_mensagem_meteorologica m t := by
  intro m t hflag hfg hvis
  have hfl : codigoFindings (pyUpper m) ("FG", "Nevoeiro") = some ["Nevoeiro"] := by
    unfold codigoFindings
    rw [if_pos hfg, if_neg (by decide), if_pos rfl, hvis, Option.elim_none, if_pos hfg]
  exact mem_analisar_of_codigo hflag (by decide) hfl (List.mem_singleton.mpr rfl)

/-- Claim C8, witnessed on a bulletin that is nothing but the fog code. -/
theorem claim_C8_fog_fallback_witness :
    "Nevoeiro" ∈ analisar_mensagem_meteorologica "FG" "METAR" :=
  claim_C8_fog_fallback "FG" "METAR" (by decide) (by decide) (by decide)

/-- Claim C9: the classification core is total — for every bulletin text
and type string it returns a finding list; no `int(...)` conversion can
fail because each one is fed a digit group produced by the regex that
guarded it. -/
theorem claim_C9_total : ∀ m t : String, ∃ l, analisarM m t = some l := fun m t =>
  Option.isSome_iff_exists.mp (analisarM_isSome m t)

/-- Claim C10: every AVISO bulletin containing a surface-wind clause
("SFC WSPD ...") also reports wind shear, because the wind-shear keyword
test accepts `WS` as a plain substring and "WSPD" contains it. -/
theorem claim_C10_wspd_reports_ws :
    ∀ m : String, pyIn "SFC WSPD" (pyUpper m) = true →
    "Tesoura de Vento (Wind Shear)" ∈ analisar_mensagem_meteorologica m "AVISO" := by
  intro m h
  have hws : pyIn "WS" (pyUpper m) = true := pyIn_trans (by decide) h
  have hmem := mem_avisoBlock_ws hws
  rw [analisar_aviso, mem_setList]
  unfold avisoPart
  rw [if_pos (by decide : pyIn "AVISO" "AVISO" = true)]
  have hne : (avisoBlock (pyUpper m)).isEmpty = false := by
    cases he : avisoBlock (pyUpper m) with
    | nil => rw [he] at hmem; cases hmem
    | cons a l => rfl
  rw [if_neg (by rw [hne]; simp), mem_setList]
  exact hmem

/-- Claim C10, witnessed on a bare surface-wind clause. -/
theorem claim_C10_wspd_reports_ws_witness :
    "Tesoura de Vento (Wind Shear)" ∈
      analisar_mensagem_meteorologica "SFC WSPD 15KT" "AVISO" :=
  claim_C10_wspd_reports_ws "SFC WSPD 15KT" (by decide)

end AlertaRedemet
